import Mathlib

/-!
Verification development for the clair_veo3 repository: an Express relay in
front of the Vertex AI VEO video API (`src/unnamed/part_000`) and a React
client that owns a single video job and polls the relay for its status
(`src/frontend/src/App.tsx`, job shape in `src/unnamed/part_001`).

The relay handlers are pure functions of the request plus the upstream
outcome, so they are embedded directly.  The client is embedded as an
explicit event-driven state machine: one `AppState` record mirrors the React
component's state and refs, and each user action, timer tick, effect run and
network continuation is an `Event` interpreted by a `step` function.
`Date.now()` is modelled by a monotone counter threaded through the state,
and network calls are split into an issuing step and a separate
resolve/reject step so that in-flight requests are explicit.  Renders and
effect re-runs are modelled by an explicit `Event.effect`, which may be
interleaved at any point (in the browser, React flushes state updates and
effects between event-loop turns, before the next timer callback).
-/

namespace Veo

/-- `OperationStatus` from `src/unnamed/part_001` (types.ts). -/
inductive OperationStatus where
  | NOT_STARTED
  | GENERATING
  | RUNNING
  | SUCCEEDED
  | FAILED
  | FETCHING
deriving DecidableEq, Repr

/-- The long-running-operation document that the relay's status handler reads
from the upstream service (`src/unnamed/part_000`, `response.data`): a `done`
flag, an optional `response` payload and an optional `error` object.  A present
`response` models a JSON object (always truthy in JS); `none` models
null/absent.  The `error` field carries its `message` string. -/
structure OperationData where
  done : Bool
  response : Option String
  error : Option String
deriving DecidableEq, Repr

/-- The status computation of `GET /api/veo/status/:operationId`
(`src/unnamed/part_000`):
`done ? (opResponse ? 'SUCCEEDED' : 'FAILED') : 'RUNNING'`. -/
def statusOfOperation (d : OperationData) : OperationStatus :=
  if d.done then
    if d.response.isSome then OperationStatus.SUCCEEDED else OperationStatus.FAILED
  else OperationStatus.RUNNING

/-- The `jobDetails` envelope the status handler sends back: only an id, the
operation id, and the computed status (`src/unnamed/part_000`). -/
structure StatusEnvelope where
  id : String
  operationId : String
  status : OperationStatus
deriving DecidableEq, Repr

/-- `GET /api/veo/status/:operationId` success path: build `jobDetails` with
`id = job_<Date.now()>`, the echoed operation id, and the computed status.
`now` models `Date.now()`. -/
def statusHandler (operationId : String) (now : Nat) (d : OperationData) : StatusEnvelope :=
  { id := "job_" ++ toString now
    operationId := operationId
    status := statusOfOperation d }

/-- The body of `POST /api/veo/generate` as destructured by the handler
(`src/unnamed/part_000`).  `prompt` is `Option String` so that a missing field
and a present string are distinguished; JS falsiness of the prompt is
`promptTruthy`. -/
structure GenerateBody where
  prompt : Option String
  imageBase64 : Option String
  mimeType : Option String
  aspectRatio : String
  durationSeconds : Nat
  generateAudio : Bool
deriving DecidableEq, Repr

/-- JS truthiness of the destructured `prompt` (`if (!prompt)` rejects a
missing prompt and the empty string). -/
def promptTruthy (b : GenerateBody) : Bool :=
  match b.prompt with
  | some s => !(s == "")
  | none => false

/-- The `parameters` object placed inside the upstream instance
(`src/unnamed/part_000`, request construction). -/
structure VeoParameters where
  aspectRatio : String
  durationSeconds : Nat
  generateAudio : Bool
deriving DecidableEq, Repr

/-- One element of `instances` in the upstream request: the prompt and the
parameters object, nothing else (`src/unnamed/part_000`). -/
structure UpstreamInstance where
  prompt : String
  parameters : VeoParameters
deriving DecidableEq, Repr

/-- The request sent to the upstream video API (`src/unnamed/part_000`):
an endpoint string and the `instances` array. -/
structure UpstreamRequest where
  endpoint : String
  instances : List UpstreamInstance
deriving DecidableEq, Repr

/-- The environment variables the relay reads. -/
structure RelayEnv where
  project : String
  location : String
deriving DecidableEq, Repr

/-- The upstream request built by the generate handler
(`src/unnamed/part_000`): the endpoint from the env vars and a single
instance holding the prompt and `{aspectRatio, durationSeconds,
generateAudio}`.  The handler only calls this after the prompt truthiness
check, so the `getD ""` default is never the served value. -/
def buildUpstreamRequest (env : RelayEnv) (b : GenerateBody) : UpstreamRequest :=
  { endpoint := "projects/" ++ env.project ++ "/locations/" ++ env.location ++
      "/publishers/google/models/veo-3.0-generate-preview"
    instances :=
      [ { prompt := b.prompt.getD ""
          parameters :=
            { aspectRatio := b.aspectRatio
              durationSeconds := b.durationSeconds
              generateAudio := b.generateAudio } } ] }

/-- Outcome of `generativeModel.generateContent`: either it fulfils, with
`response.response.operation?.name` possibly absent, or it throws. -/
inductive UpstreamResult where
  | ok (operationName : Option String)
  | thrown
deriving DecidableEq, Repr

/-- An HTTP reply from the generate handler: an error with status code and
`{message}` body, or a 200 `{operationId}` body. -/
inductive GenerateReply where
  | err (status : Nat) (message : String)
  | success (operationId : String)
deriving DecidableEq, Repr

/-- `POST /api/veo/generate` (`src/unnamed/part_000`): 400 when the prompt is
falsy; otherwise call upstream — if it throws, the catch block only logs, so
NO reply is sent (`none`); if it fulfils without an operation name, 500;
otherwise reply `{operationId}`. -/
def generateHandler (b : GenerateBody) (u : UpstreamResult) : Option GenerateReply :=
  if promptTruthy b then
    match u with
    | UpstreamResult.thrown => none
    | UpstreamResult.ok none =>
        some (GenerateReply.err 500 "Failed to initiate video generation")
    | UpstreamResult.ok (some op) => some (GenerateReply.success op)
  else some (GenerateReply.err 400 "Prompt is required")

/-- `VideoJobDetails` from `src/unnamed/part_001` (types.ts).  The TS
interface declares the generation parameters as required, but at runtime the
client overwrites the job with the relay's bare `{id, operationId, status}`
envelope (`setCurrentJob(updatedJob)` in App.tsx), so every field that can be
absent at runtime is an `Option` here (`none` models null/undefined). -/
structure VideoJobDetails where
  id : String
  operationId : Option String
  status : OperationStatus
  prompt : Option String
  imageBase64 : Option String
  mimeType : Option String
  aspectRatio : Option String
  durationSeconds : Option Nat
  generateAudio : Option Bool
  videoBase64 : Option String
  errorMessage : Option String
  progress : Option Nat
deriving DecidableEq, Repr

/-- The relay's status envelope, as the client receives and stores it: only
`id`, `operationId` and `status` are present; every other job field is
absent. -/
def jobOfEnvelope (e : StatusEnvelope) : VideoJobDetails :=
  { id := e.id
    operationId := some e.operationId
    status := e.status
    prompt := none
    imageBase64 := none
    mimeType := none
    aspectRatio := none
    durationSeconds := none
    generateAudio := none
    videoBase64 := none
    errorMessage := none
    progress := none }

/-- Whether a status request was issued by the interval callback or by the
manual "Fetch Video Status" handler (their catch blocks differ). -/
inductive PollKind where
  | auto
  | manual
deriving DecidableEq, Repr

/-- An in-flight `fetchVideoStatus` request: its kind, the operation id it was
issued for, and the client id of the job it was issued for. -/
structure PendingPoll where
  kind : PollKind
  opId : String
  jobId : String
deriving DecidableEq, Repr

/-- Outcome of the awaited `initiateVideoGeneration` call. -/
inductive StartOutcome where
  | ok (operationId : String)
  | failed (msg : String)
deriving DecidableEq, Repr

/-- Outcome of the awaited `cancelVideoGeneration` call. -/
inductive CancelOutcome where
  | ok
  | failed (msg : String)
deriving DecidableEq, Repr

/-- The module-level constants of `constants.ts` that `handleClearJob` resets
the form to (that file is not in the sources; the concrete values are
irrelevant, so they are parameters). -/
structure FormDefaults where
  defaultAspectRatio : String
  defaultDurationSeconds : Nat
  defaultGenerateAudio : Bool
deriving DecidableEq, Repr

/-- The state of the `App` component (`src/frontend/src/App.tsx`): its React
state hooks, the `pollingIntervalRef` ref, plus the explicit parts of the
environment — the set of live intervals (`liveTimers`, with `nextTimerId`
feeding fresh interval ids), the in-flight status requests (`pending`), a
flag for an in-flight cancel call, and the `Date.now()` counter (`now`). -/
structure AppState where
  currentJob : Option VideoJobDetails
  currentPrompt : String
  initialImage : Option (String × String)
  aspectRatio : String
  durationSeconds : Nat
  generateAudio : Bool
  isLoading : Bool
  isFetchingStatus : Bool
  error : Option String
  ref : Option Nat
  liveTimers : List Nat
  nextTimerId : Nat
  pending : List PendingPoll
  cancelInFlight : Bool
  now : Nat
deriving DecidableEq, Repr

/-- `clearPollingInterval` (App.tsx): if the ref holds an interval id, clear
that interval and null the ref; otherwise do nothing. -/
def clearPollingInterval (s : AppState) : AppState :=
  { s with
    liveTimers :=
      match s.ref with
      | some i => s.liveTimers.erase i
      | none => s.liveTimers
    ref := none }

/-- The condition of the polling effect and of `handleClearJob`'s cancel
branch: a job exists, has an operation id, and is `RUNNING` or
`GENERATING`. -/
def pollableJob (o : Option VideoJobDetails) : Bool :=
  match o with
  | none => false
  | some j =>
      j.operationId.isSome &&
        match j.status with
        | OperationStatus.RUNNING => true
        | OperationStatus.GENERATING => true
        | _ => false

/-- `setInterval` plus storing the returned id in `pollingIntervalRef`. -/
def startInterval (s : AppState) : AppState :=
  { s with
    liveTimers := s.nextTimerId :: s.liveTimers
    ref := some s.nextTimerId
    nextTimerId := s.nextTimerId + 1 }

/-- One run of the polling `useEffect` body (App.tsx).  React re-runs it after
any render in which `currentJob` or `isFetchingStatus` changed (both are in
its dependency array), first invoking the previous cleanup.  Pollable job:
clear any existing interval, create a new one and store its id in the ref.
Otherwise: clear. -/
def effectRun (s : AppState) : AppState :=
  if pollableJob s.currentJob then startInterval (clearPollingInterval s)
  else clearPollingInterval s

/-- The synchronous part of the interval callback (App.tsx polling effect), up
to the `await fetchVideoStatus`: fires only while an interval is live; if
`isFetchingStatus` it returns at once; otherwise it sets `isFetchingStatus`,
clears the error, and issues a status request for the current job's operation
id. -/
def tickFire (s : AppState) : AppState :=
  match s.ref with
  | none => s
  | some _ =>
      if s.isFetchingStatus then s
      else
        match s.currentJob with
        | none => s
        | some j =>
            match j.operationId with
            | none => s
            | some op =>
                { s with
                  isFetchingStatus := true
                  error := none
                  pending := s.pending ++ [⟨PollKind.auto, op, j.id⟩] }

/-- `handleFetchStatusManual` (App.tsx), up to its `await`: guarded by job
presence, an operation id, `isLoading` and `isFetchingStatus`; then issues a
manual status request. -/
def fetchStatusManual (s : AppState) : AppState :=
  match s.currentJob with
  | none => s
  | some j =>
      match j.operationId with
      | none => s
      | some op =>
          if s.isLoading || s.isFetchingStatus then s
          else
            { s with
              isFetchingStatus := true
              error := none
              pending := s.pending ++ [⟨PollKind.manual, op, j.id⟩] }

/-- Store a received envelope job: `setCurrentJob(updatedJob)`; if the new
status is terminal, clear the interval and `isLoading`; the `finally` resets
`isFetchingStatus` either way. -/
def applyEnvelope (s : AppState) (i : Nat) (j : VideoJobDetails) : AppState :=
  if j.status = OperationStatus.SUCCEEDED ∨ j.status = OperationStatus.FAILED then
    { clearPollingInterval
        { s with
          currentJob := some j
          pending := s.pending.eraseIdx i
          now := s.now + 1 } with
      isLoading := false
      isFetchingStatus := false }
  else
    { s with
      currentJob := some j
      pending := s.pending.eraseIdx i
      now := s.now + 1
      isFetchingStatus := false }

/-- The fulfilled continuation of a status request (identical in the interval
callback and in `handleFetchStatusManual`): the relay evaluates the upstream
operation document `d` and replies with its envelope; the client stores it as
the whole current job (`setCurrentJob(updatedJob)` — with no comparison
against the current operation id). -/
def fetchResolve (s : AppState) (i : Nat) (d : OperationData) : AppState :=
  match s.pending[i]? with
  | none => s
  | some p => applyEnvelope s i (jobOfEnvelope (statusHandler p.opId s.now d))

/-- The rejected continuation of a status request.  Interval callback's catch
(App.tsx): set the error, clear the interval, reset `isLoading`; finally reset
`isFetchingStatus`.  Manual handler's catch: set the error only (its comment
says not to clear the interval); finally reset `isFetchingStatus`. -/
def fetchReject (s : AppState) (i : Nat) (msg : String) : AppState :=
  match s.pending[i]? with
  | none => s
  | some p =>
      match p.kind with
      | PollKind.auto =>
          { clearPollingInterval
              { s with error := some msg, pending := s.pending.eraseIdx i } with
            isLoading := false
            isFetchingStatus := false }
      | PollKind.manual =>
          { s with
            error := some msg
            pending := s.pending.eraseIdx i
            isFetchingStatus := false }

/-- The continuation of the awaited `initiateVideoGeneration` call in
`handleInitiateVideo`: on success store the new `GENERATING` job built from
the form state `orig` (leaving `isLoading` true); on failure set the error
and reset `isLoading`. -/
def initiateVideoSettle (orig s1 : AppState) (r : StartOutcome) : AppState :=
  match r with
  | StartOutcome.ok op =>
      { s1 with
        currentJob := some
          { id := "job_" ++ toString s1.now
            operationId := some op
            status := OperationStatus.GENERATING
            prompt := some orig.currentPrompt
            imageBase64 := orig.initialImage.map Prod.fst
            mimeType := orig.initialImage.map Prod.snd
            aspectRatio := some orig.aspectRatio
            durationSeconds := some orig.durationSeconds
            generateAudio := some orig.generateAudio
            videoBase64 := none
            errorMessage := none
            progress := some 0 }
        now := s1.now + 1 }
  | StartOutcome.failed msg => { s1 with error := some msg, isLoading := false }

/-- JS `String.prototype.trim`: strip leading and trailing whitespace
(defined over the character list so that it evaluates by kernel
reduction). -/
def jsTrim (s : String) : String :=
  ⟨((s.data.dropWhile Char.isWhitespace).reverse.dropWhile Char.isWhitespace).reverse⟩

/-- `handleInitiateVideo` (App.tsx), with the awaited start call folded into
one step via its outcome `r`: reject an empty (trimmed) prompt; reject while
`isLoading`; otherwise set `isLoading`, clear the error, null the job, clear
any existing interval, and settle the start call. -/
def initiateVideo (s : AppState) (r : StartOutcome) : AppState :=
  if jsTrim s.currentPrompt = "" then { s with error := some "Prompt cannot be empty." }
  else if s.isLoading then s
  else
    initiateVideoSettle s
      (clearPollingInterval { s with isLoading := true, error := none, currentJob := none }) r

/-- The unconditional tail of `handleClearJob` (App.tsx), run after the
optional cancel call settles: clear the interval, null the job, reset the
form to its defaults, clear the error and both busy flags. -/
def clearJobTail (c : FormDefaults) (s : AppState) : AppState :=
  { clearPollingInterval s with
    currentJob := none
    currentPrompt := ""
    initialImage := none
    aspectRatio := c.defaultAspectRatio
    durationSeconds := c.defaultDurationSeconds
    generateAudio := c.defaultGenerateAudio
    error := none
    isLoading := false
    isFetchingStatus := false }

/-- `handleClearJob` (App.tsx), synchronous part: when the job is cancellable
(present, with operation id, `RUNNING` or `GENERATING`) it sets `isLoading`,
clears the error and awaits the relay's cancel call — the tail does NOT run
until that call settles.  Otherwise the tail runs at once. -/
def clearJob (c : FormDefaults) (s : AppState) : AppState :=
  if pollableJob s.currentJob then
    { s with isLoading := true, error := none, cancelInFlight := true }
  else clearJobTail c s

/-- The continuation of the awaited cancel call in `handleClearJob`: on
rejection the catch sets an error message (which the tail's `setError(null)`
then wipes); the `finally` resets `isLoading`; then the tail runs. -/
def cancelSettle (c : FormDefaults) (s : AppState) (r : CancelOutcome) : AppState :=
  if s.cancelInFlight then
    match r with
    | CancelOutcome.ok =>
        clearJobTail c { s with isLoading := false, cancelInFlight := false }
    | CancelOutcome.failed m =>
        clearJobTail c
          { s with
            error := some ("Failed to request cancellation from backend: " ++ m ++
              ". Clearing job locally.")
            isLoading := false
            cancelInFlight := false }
  else s

/-- The component unmount cleanup of the polling effect (App.tsx): clear the
interval. -/
def unmountCleanup (s : AppState) : AppState :=
  clearPollingInterval s

/-- The events of the client: form edits, the start handler (with its awaited
outcome), a polling-effect run, an interval tick, the manual fetch handler,
the fulfilment or rejection of the `i`-th in-flight status request, the clear
handler and the settlement of its cancel call, and unmount. -/
inductive Event where
  | setPrompt (p : String)
  | setImage (img : Option (String × String))
  | start (r : StartOutcome)
  | effect
  | tick
  | fetchManual
  | resolve (i : Nat) (d : OperationData)
  | reject (i : Nat) (msg : String)
  | clear
  | cancelDone (r : CancelOutcome)
  | unmount
deriving DecidableEq, Repr

/-- Interpret one event on the component state. -/
def step (c : FormDefaults) (s : AppState) : Event → AppState
  | Event.setPrompt p => { s with currentPrompt := p }
  | Event.setImage img => { s with initialImage := img }
  | Event.start r => initiateVideo s r
  | Event.effect => effectRun s
  | Event.tick => tickFire s
  | Event.fetchManual => fetchStatusManual s
  | Event.resolve i d => fetchResolve s i d
  | Event.reject i msg => fetchReject s i msg
  | Event.clear => clearJob c s
  | Event.cancelDone r => cancelSettle c s r
  | Event.unmount => unmountCleanup s

/-- The initial component state: no job, empty form at the defaults, no
interval, no in-flight request. -/
def initState (c : FormDefaults) : AppState :=
  { currentJob := none
    currentPrompt := ""
    initialImage := none
    aspectRatio := c.defaultAspectRatio
    durationSeconds := c.defaultDurationSeconds
    generateAudio := c.defaultGenerateAudio
    isLoading := false
    isFetchingStatus := false
    error := none
    ref := none
    liveTimers := []
    nextTimerId := 0
    pending := []
    cancelInFlight := false
    now := 0 }

/-- Run a list of events from the initial state. -/
def run (c : FormDefaults) (evs : List Event) : AppState :=
  evs.foldl (step c) (initState c)

/-- Concrete form defaults for closed evaluations (the real values live in
the absent `constants.ts` and are irrelevant to every claim). -/
def someDefaults : FormDefaults :=
  { defaultAspectRatio := "16:9"
    defaultDurationSeconds := 8
    defaultGenerateAudio := true }

/-- A shared concrete reachable state: prompt entered, job started, polling
effect run, one interval tick taken (so one auto poll is in flight). -/
def runA : AppState :=
  run someDefaults
    [Event.setPrompt "a cat", Event.start (StartOutcome.ok "op1"), Event.effect, Event.tick]

/-!  Invariant machinery: the live intervals are exactly the content of
`pollingIntervalRef`, because every interval creation in the source is
immediately preceded by `clearPollingInterval` and immediately followed by
storing the new id in the ref. -/

/-- The set of live intervals matches the ref. -/
def TimerInv (s : AppState) : Prop :=
  s.liveTimers = s.ref.toList

theorem timerInv_initState (c : FormDefaults) : TimerInv (initState c) := rfl

theorem clear_liveTimers (s : AppState) (h : TimerInv s) :
    (clearPollingInterval s).liveTimers = [] := by
  rcases hr : s.ref with _ | i <;>
    simp only [TimerInv, hr, Option.toList] at h <;>
    simp [clearPollingInterval, hr, h]

theorem timerInv_clear (s : AppState) (h : TimerInv s) :
    TimerInv (clearPollingInterval s) := by
  show (clearPollingInterval s).liveTimers = (clearPollingInterval s).ref.toList
  rw [clear_liveTimers s h]
  rfl

theorem timerInv_effectRun (s : AppState) (h : TimerInv s) : TimerInv (effectRun s) := by
  unfold effectRun
  split
  · show _ = _
    simp [startInterval, clear_liveTimers s h, Option.toList]
  · exact timerInv_clear s h

theorem timerInv_tickFire (s : AppState) (h : TimerInv s) : TimerInv (tickFire s) := by
  unfold tickFire
  split
  · exact h
  · split
    · exact h
    · split
      · exact h
      · split
        · exact h
        · exact h

theorem timerInv_fetchStatusManual (s : AppState) (h : TimerInv s) :
    TimerInv (fetchStatusManual s) := by
  unfold fetchStatusManual
  split
  · exact h
  · split
    · exact h
    · split
      · exact h
      · exact h

theorem timerInv_applyEnvelope (s : AppState) (i : Nat) (j : VideoJobDetails)
    (h : TimerInv s) : TimerInv (applyEnvelope s i j) := by
  unfold applyEnvelope
  split
  · exact timerInv_clear _ h
  · exact h

theorem timerInv_fetchResolve (s : AppState) (i : Nat) (d : OperationData)
    (h : TimerInv s) : TimerInv (fetchResolve s i d) := by
  unfold fetchResolve
  split
  · exact h
  · exact timerInv_applyEnvelope _ _ _ h

theorem timerInv_fetchReject (s : AppState) (i : Nat) (msg : String)
    (h : TimerInv s) : TimerInv (fetchReject s i msg) := by
  unfold fetchReject
  split
  · exact h
  · split
    · exact timerInv_clear _ h
    · exact h

theorem timerInv_initiateVideo (s : AppState) (r : StartOutcome)
    (h : TimerInv s) : TimerInv (initiateVideo s r) := by
  unfold initiateVideo
  split
  · exact h
  · split
    · exact h
    · cases r
      · exact timerInv_clear _ h
      · exact timerInv_clear _ h

theorem timerInv_clearJobTail (c : FormDefaults) (s : AppState) (h : TimerInv s) :
    TimerInv (clearJobTail c s) := by
  exact timerInv_clear _ h

theorem clearJobTail_liveTimers (c : FormDefaults) (s : AppState) (h : TimerInv s) :
    (clearJobTail c s).liveTimers = [] :=
  clear_liveTimers s h

theorem timerInv_clearJob (c : FormDefaults) (s : AppState) (h : TimerInv s) :
    TimerInv (clearJob c s) := by
  unfold clearJob
  split
  · exact h
  · exact timerInv_clearJobTail c s h

theorem timerInv_cancelSettle (c : FormDefaults) (s : AppState) (r : CancelOutcome)
    (h : TimerInv s) : TimerInv (cancelSettle c s r) := by
  unfold cancelSettle
  split
  · cases r
    · exact timerInv_clearJobTail c _ h
    · exact timerInv_clearJobTail c _ h
  · exact h

theorem timerInv_step (c : FormDefaults) (e : Event) (s : AppState) (h : TimerInv s) :
    TimerInv (step c s e) := by
  cases e with
  | setPrompt p => exact h
  | setImage img => exact h
  | start r => exact timerInv_initiateVideo s r h
  | effect => exact timerInv_effectRun s h
  | tick => exact timerInv_tickFire s h
  | fetchManual => exact timerInv_fetchStatusManual s h
  | resolve i d => exact timerInv_fetchResolve s i d h
  | reject i msg => exact timerInv_fetchReject s i msg h
  | clear => exact timerInv_clearJob c s h
  | cancelDone r => exact timerInv_cancelSettle c s r h
  | unmount => exact timerInv_clear s h

theorem timerInv_run (c : FormDefaults) (evs : List Event) : TimerInv (run c evs) := by
  suffices h : ∀ s : AppState, TimerInv s → TimerInv (List.foldl (step c) s evs) by
    exact h _ (timerInv_initState c)
  induction evs with
  | nil => intro s hs; exact hs
  | cons e t ih =>
      intro s hs
      exact ih _ (timerInv_step c e s hs)

theorem liveTimers_length_le_one (s : AppState) (h : TimerInv s) :
    s.liveTimers.length ≤ 1 := by
  rw [show s.liveTimers = s.ref.toList from h]
  cases s.ref <;> simp [Option.toList]

/-- A job in a terminal state is not pollable. -/
theorem pollable_of_terminal (j : VideoJobDetails)
    (h : j.status = OperationStatus.SUCCEEDED ∨ j.status = OperationStatus.FAILED) :
    pollableJob (some j) = false := by
  rcases h with h | h <;> simp [pollableJob, h]

/-- Shared fact: the clear handler followed by the settlement of its cancel
call always ends with no job, no interval and both busy flags reset,
whichever way the cancel call settles. -/
theorem cancel_clears (c : FormDefaults) (s : AppState) (h : TimerInv s) (r : CancelOutcome) :
    (step c (step c s Event.clear) (Event.cancelDone r)).currentJob = none
    ∧ (step c (step c s Event.clear) (Event.cancelDone r)).liveTimers = []
    ∧ (step c (step c s Event.clear) (Event.cancelDone r)).isLoading = false
    ∧ (step c (step c s Event.clear) (Event.cancelDone r)).isFetchingStatus = false := by
  simp only [step, clearJob]
  split
  · cases r <;> exact ⟨rfl, clear_liveTimers _ h, rfl, rfl⟩
  · unfold cancelSettle
    split
    · cases r <;>
        exact ⟨rfl, clearJobTail_liveTimers c _ (timerInv_clearJobTail c s h), rfl, rfl⟩
    · exact ⟨rfl, clearJobTail_liveTimers c s h, rfl, rfl⟩

/-- The state after applying a terminal poll result: the envelope job is
stored, the interval is cleared, and a subsequent effect run does not
recreate it. -/
theorem resolve_terminal (c : FormDefaults) (evs : List Event) (i : Nat)
    (d : OperationData) (hi : i < (run c evs).pending.length)
    (hterm : statusOfOperation d = OperationStatus.SUCCEEDED ∨
      statusOfOperation d = OperationStatus.FAILED) :
    (step c (run c evs) (Event.resolve i d)).currentJob =
      some (jobOfEnvelope
        (statusHandler ((run c evs).pending[i]).opId (run c evs).now d))
    ∧ (step c (run c evs) (Event.resolve i d)).liveTimers = []
    ∧ (step c (run c evs) (Event.resolve i d)).isFetchingStatus = false
    ∧ (step c (step c (run c evs) (Event.resolve i d)) Event.effect).liveTimers = [] := by
  have h := timerInv_run c evs
  have hp : (run c evs).pending[i]? = some ((run c evs).pending[i]) :=
    List.getElem?_eq_getElem hi
  have hcur : (step c (run c evs) (Event.resolve i d)).currentJob =
      some (jobOfEnvelope
        (statusHandler ((run c evs).pending[i]).opId (run c evs).now d)) := by
    show (fetchResolve (run c evs) i d).currentJob = _
    simp only [fetchResolve, hp]
    unfold applyEnvelope
    split <;> rfl
  have hlt : (step c (run c evs) (Event.resolve i d)).liveTimers = [] := by
    show (fetchResolve (run c evs) i d).liveTimers = []
    simp only [fetchResolve, hp]
    unfold applyEnvelope
    split
    · exact clear_liveTimers _ h
    · rename_i hne
      exact absurd hterm hne
  have hff : (step c (run c evs) (Event.resolve i d)).isFetchingStatus = false := by
    show (fetchResolve (run c evs) i d).isFetchingStatus = false
    simp only [fetchResolve, hp]
    unfold applyEnvelope
    split <;> rfl
  refine ⟨hcur, hlt, hff, ?_⟩
  have hInv' : TimerInv (step c (run c evs) (Event.resolve i d)) :=
    timerInv_step c (Event.resolve i d) (run c evs) h
  have hpol : pollableJob
      ((step c (run c evs) (Event.resolve i d)).currentJob) = false := by
    rw [hcur]
    exact pollable_of_terminal _ hterm
  show (effectRun (step c (run c evs) (Event.resolve i d))).liveTimers = []
  unfold effectRun
  rw [if_neg (by simp [hpol])]
  exact clear_liveTimers _ hInv'

/-- C1 counterexample: the status handler ignores the operation's `error`
field.  On `done=true` with a non-null `response` AND an `error` field
present, the claim requires `FAILED`, but the code computes `SUCCEEDED`. -/
theorem status_error_field_ignored_cex :
    statusOfOperation ⟨true, some "payload", some "boom"⟩ = OperationStatus.SUCCEEDED
    ∧ ¬ statusOfOperation ⟨true, some "payload", some "boom"⟩ = OperationStatus.FAILED := by
  decide

/-- C1 (amended): a poll's resulting status is determined exactly by `done`
and the nullity of `response`: `done=false` gives `RUNNING`; `done=true` with
a non-null response gives `SUCCEEDED`; `done=true` with a null response gives
`FAILED`; no other status arises, and the `error` field never influences the
result.  Whenever a poll response is applied, the stored job's status is
exactly this computed status. -/
theorem status_mapping_amended (d : OperationData) :
    (statusOfOperation d = OperationStatus.RUNNING ↔ d.done = false)
    ∧ (statusOfOperation d = OperationStatus.SUCCEEDED ↔
        d.done = true ∧ d.response.isSome = true)
    ∧ (statusOfOperation d = OperationStatus.FAILED ↔ d.done = true ∧ d.response = none)
    ∧ (∀ e, statusOfOperation { d with error := e } = statusOfOperation d)
    ∧ (∀ (c : FormDefaults) (evs : List Event) (i : Nat),
        i < (run c evs).pending.length →
        ∃ j, (step c (run c evs) (Event.resolve i d)).currentJob = some j
          ∧ j.status = statusOfOperation d) := by
  obtain ⟨dn, resp, err⟩ := d
  refine ⟨?_, ?_, ?_, ?_, ?_⟩
  · cases dn <;> cases resp <;> simp [statusOfOperation]
  · cases dn <;> cases resp <;> simp [statusOfOperation]
  · cases dn <;> cases resp <;> simp [statusOfOperation]
  · intro e; cases dn <;> cases resp <;> simp [statusOfOperation]
  · intro c evs i hi
    have hp : (run c evs).pending[i]? = some ((run c evs).pending[i]) :=
      List.getElem?_eq_getElem hi
    refine ⟨jobOfEnvelope
      (statusHandler ((run c evs).pending[i]).opId (run c evs).now ⟨dn, resp, err⟩), ?_, rfl⟩
    show (fetchResolve (run c evs) i ⟨dn, resp, err⟩).currentJob = _
    simp only [fetchResolve, hp]
    unfold applyEnvelope
    split <;> rfl

/-- Witness for the amended C1 at a concrete reachable state with one poll in
flight and a concrete operation document. -/
theorem status_mapping_amended_witness :
    0 < runA.pending.length
    ∧ ∃ j, (step someDefaults runA
        (Event.resolve 0 ⟨true, some "payload", some "boom"⟩)).currentJob = some j
        ∧ j.status = statusOfOperation ⟨true, some "payload", some "boom"⟩ := by
  refine ⟨by decide, ?_⟩
  exact (status_mapping_amended ⟨true, some "payload", some "boom"⟩).2.2.2.2
    someDefaults
    [Event.setPrompt "a cat", Event.start (StartOutcome.ok "op1"), Event.effect, Event.tick]
    0 (by decide)

/-- C9 counterexample: a generate request with a truthy prompt whose upstream
call throws receives NO HTTP reply at all (the catch block only logs), while
the claim promises a 5xx with a `{message}` body. -/
theorem generate_thrown_no_reply_cex :
    promptTruthy ⟨some "a cat", some "img", some "image/png", "16:9", 8, true⟩ = true
    ∧ generateHandler ⟨some "a cat", some "img", some "image/png", "16:9", 8, true⟩
        UpstreamResult.thrown = none := by
  decide

/-- C9 (amended): a missing or empty prompt is answered 400
`{message:"Prompt is required"}` before any upstream call; a fulfilled
upstream call without an operation name is answered 500 with a message; a
fulfilled call with an operation name is answered `{operationId}`; but when
the upstream call throws, the handler sends no reply at all — exactly the
truthy-prompt-plus-throw case is unanswered. -/
theorem generate_reply_amended (b : GenerateBody) (u : UpstreamResult) :
    (generateHandler b u = none ↔ promptTruthy b = true ∧ u = UpstreamResult.thrown)
    ∧ (promptTruthy b = false →
        generateHandler b u = some (GenerateReply.err 400 "Prompt is required"))
    ∧ (promptTruthy b = true → u = UpstreamResult.ok none →
        generateHandler b u = some (GenerateReply.err 500 "Failed to initiate video generation"))
    ∧ (∀ op, promptTruthy b = true → u = UpstreamResult.ok (some op) →
        generateHandler b u = some (GenerateReply.success op)) := by
  cases hb : promptTruthy b <;>
    cases u with
    | ok nm => cases nm <;> simp [generateHandler, hb]
    | thrown => simp [generateHandler, hb]

/-- Witness for the amended C9: each reply shape at concrete inputs. -/
theorem generate_reply_amended_witness :
    promptTruthy ⟨none, none, none, "16:9", 8, true⟩ = false
    ∧ generateHandler ⟨none, none, none, "16:9", 8, true⟩ (UpstreamResult.ok (some "op_9"))
        = some (GenerateReply.err 400 "Prompt is required")
    ∧ promptTruthy ⟨some "a cat", none, none, "16:9", 8, true⟩ = true
    ∧ generateHandler ⟨some "a cat", none, none, "16:9", 8, true⟩ (UpstreamResult.ok (some "op_9"))
        = some (GenerateReply.success "op_9")
    ∧ generateHandler ⟨some "a cat", none, none, "16:9", 8, true⟩ (UpstreamResult.ok none)
        = some (GenerateReply.err 500 "Failed to initiate video generation") := by
  refine ⟨by decide, (generate_reply_amended _ _).2.1 (by decide), by decide,
    (generate_reply_amended _ _).2.2.2 "op_9" (by decide) rfl,
    (generate_reply_amended _ _).2.2.1 (by decide) rfl⟩

/-- C10: the upstream request built by the generate handler contains only the
prompt and the `aspectRatio` / `durationSeconds` / `generateAudio`
parameters; two request bodies that agree on those (and may differ in
`imageBase64` / `mimeType`) produce the same upstream request, and the
handler's reply is the same function of the upstream outcome for both. -/
theorem image_not_forwarded (env : RelayEnv) (b1 b2 : GenerateBody)
    (hp : b1.prompt = b2.prompt) (ha : b1.aspectRatio = b2.aspectRatio)
    (hd : b1.durationSeconds = b2.durationSeconds)
    (hg : b1.generateAudio = b2.generateAudio) :
    buildUpstreamRequest env b1 = buildUpstreamRequest env b2
    ∧ (∀ u, generateHandler b1 u = generateHandler b2 u)
    ∧ (buildUpstreamRequest env b1).instances =
        [{ prompt := b1.prompt.getD ""
           parameters :=
             { aspectRatio := b1.aspectRatio
               durationSeconds := b1.durationSeconds
               generateAudio := b1.generateAudio } }] := by
  refine ⟨?_, ?_, rfl⟩
  · simp [buildUpstreamRequest, hp, ha, hd, hg]
  · intro u
    have hpt : promptTruthy b1 = promptTruthy b2 := by simp [promptTruthy, hp]
    cases u <;> simp [generateHandler, hpt]

/-- Witness for C10: two concrete bodies differing only in the image payload
yield the same upstream request and the same reply. -/
theorem image_not_forwarded_witness :
    (⟨some "a cat", some "imgdata", some "image/png", "16:9", 8, true⟩ : GenerateBody).imageBase64
      ≠ (⟨some "a cat", none, none, "16:9", 8, true⟩ : GenerateBody).imageBase64
    ∧ buildUpstreamRequest ⟨"proj", "loc"⟩
        ⟨some "a cat", some "imgdata", some "image/png", "16:9", 8, true⟩
      = buildUpstreamRequest ⟨"proj", "loc"⟩ ⟨some "a cat", none, none, "16:9", 8, true⟩
    ∧ generateHandler ⟨some "a cat", some "imgdata", some "image/png", "16:9", 8, true⟩
        (UpstreamResult.ok (some "op_1"))
      = generateHandler ⟨some "a cat", none, none, "16:9", 8, true⟩
        (UpstreamResult.ok (some "op_1")) := by
  refine ⟨by decide, ?_, ?_⟩
  · exact (image_not_forwarded ⟨"proj", "loc"⟩ _ _ rfl rfl rfl rfl).1
  · exact (image_not_forwarded ⟨"proj", "loc"⟩ _ _ rfl rfl rfl rfl).2.1 _

/-- C2 counterexample: a reachable run with TWO status requests outstanding
at once for the same job (`"job_1"` / `"opB"`).  A poll for job A is in
flight; the job is cancelled and job B started; B's first poll goes out; then
the stale A poll rejects — its continuation resets the shared
`isFetchingStatus` flag while B's poll is still pending, the effect re-creates
the interval, and the next tick issues a second concurrent poll for B. -/
theorem double_poll_same_job_cex :
    (run someDefaults
        [Event.setPrompt "a cat", Event.start (StartOutcome.ok "opA"), Event.effect,
          Event.tick, Event.clear, Event.cancelDone CancelOutcome.ok,
          Event.setPrompt "a dog", Event.start (StartOutcome.ok "opB"), Event.effect,
          Event.tick, Event.reject 0 "network error", Event.effect, Event.tick]).pending
      = [⟨PollKind.auto, "opB", "job_1"⟩, ⟨PollKind.auto, "opB", "job_1"⟩] := by
  decide

/-- C2 (amended): the reentrancy guard is the single shared
`isFetchingStatus` flag, not a per-job property: a timer tick that fires
while the flag is set issues no status request (it changes nothing at all),
and any tick issues at most one request.  At-most-one-outstanding-per-job
holds only while the flag stays set for the whole round trip; the error
continuation of a stale (pre-cancellation) poll clears the flag early, after
which a second concurrent request for the current job can be issued. -/
theorem tick_guard_amended (c : FormDefaults) (s t : AppState)
    (h : s.isFetchingStatus = true) :
    step c s Event.tick = s
    ∧ (step c t Event.tick).pending.length ≤ t.pending.length + 1 := by
  constructor
  · show tickFire s = s
    unfold tickFire
    split
    · rfl
    · rw [if_pos h]
  · show (tickFire t).pending.length ≤ t.pending.length + 1
    unfold tickFire
    split
    · exact Nat.le_succ _
    · split
      · exact Nat.le_succ _
      · split
        · exact Nat.le_succ _
        · split
          · exact Nat.le_succ _
          · simp

/-- Witness for the amended C2 at a concrete reachable state with a poll in
flight. -/
theorem tick_guard_amended_witness :
    runA.isFetchingStatus = true
    ∧ step someDefaults runA Event.tick = runA
    ∧ (step someDefaults runA Event.tick).pending.length ≤ runA.pending.length + 1 := by
  refine ⟨by decide, (tick_guard_amended someDefaults runA runA (by decide)).1,
    (tick_guard_amended someDefaults runA runA (by decide)).2⟩

/-- C3: in every reachable state at most one polling interval is live, and
the interval is torn down by: starting a new job (before any new interval is
created), a poll result that moves the job into `SUCCEEDED` or `FAILED`, the
clear/cancel handler (once its cancel call settles), and unmount. -/
theorem single_timer_teardown (c : FormDefaults) (evs : List Event) :
    ((run c evs).liveTimers).length ≤ 1
    ∧ (∀ r : StartOutcome, jsTrim (run c evs).currentPrompt ≠ "" →
        (run c evs).isLoading = false →
        (step c (run c evs) (Event.start r)).liveTimers = [])
    ∧ (∀ (i : Nat) (d : OperationData), i < (run c evs).pending.length →
        statusOfOperation d = OperationStatus.SUCCEEDED ∨
          statusOfOperation d = OperationStatus.FAILED →
        (step c (run c evs) (Event.resolve i d)).liveTimers = [])
    ∧ (∀ r : CancelOutcome,
        (step c (step c (run c evs) Event.clear) (Event.cancelDone r)).liveTimers = [])
    ∧ (step c (run c evs) Event.unmount).liveTimers = [] := by
  have h := timerInv_run c evs
  refine ⟨liveTimers_length_le_one _ h, ?_, ?_, ?_, ?_⟩
  · intro r h1 h2
    show (initiateVideo (run c evs) r).liveTimers = []
    unfold initiateVideo
    rw [if_neg h1, if_neg (by simp [h2])]
    cases r <;> exact clear_liveTimers _ h
  · intro i d hi hterm
    exact (resolve_terminal c evs i d hi hterm).2.1
  · intro r
    exact (cancel_clears c (run c evs) h r).2.1
  · exact clear_liveTimers _ h

/-- Witness for C3: each teardown conjunct at concrete reachable states. -/
theorem single_timer_teardown_witness :
    jsTrim (run someDefaults [Event.setPrompt "a cat"]).currentPrompt ≠ ""
    ∧ (run someDefaults [Event.setPrompt "a cat"]).isLoading = false
    ∧ (step someDefaults (run someDefaults [Event.setPrompt "a cat"])
        (Event.start (StartOutcome.ok "op1"))).liveTimers = []
    ∧ 0 < runA.pending.length
    ∧ statusOfOperation ⟨true, some "payload", none⟩ = OperationStatus.SUCCEEDED
    ∧ (step someDefaults runA
        (Event.resolve 0 ⟨true, some "payload", none⟩)).liveTimers = []
    ∧ (step someDefaults (step someDefaults runA Event.clear)
        (Event.cancelDone CancelOutcome.ok)).liveTimers = []
    ∧ (step someDefaults runA Event.unmount).liveTimers = [] := by
  refine ⟨by decide, by decide, ?_, by decide, by decide, ?_, ?_, ?_⟩
  · exact (single_timer_teardown someDefaults [Event.setPrompt "a cat"]).2.1
      (StartOutcome.ok "op1") (by decide) (by decide)
  · exact (single_timer_teardown someDefaults
      [Event.setPrompt "a cat", Event.start (StartOutcome.ok "op1"), Event.effect,
        Event.tick]).2.2.1 0 ⟨true, some "payload", none⟩ (by decide)
      (Or.inl (by decide))
  · exact (single_timer_teardown someDefaults
      [Event.setPrompt "a cat", Event.start (StartOutcome.ok "op1"), Event.effect,
        Event.tick]).2.2.2.1 CancelOutcome.ok
  · exact (single_timer_teardown someDefaults
      [Event.setPrompt "a cat", Event.start (StartOutcome.ok "op1"), Event.effect,
        Event.tick]).2.2.2.2

/-- C4 counterexample: a poll that returns `done=true` with a result payload
moves the job to `SUCCEEDED`, but the stored job's `videoBase64` is null —
the relay's envelope contains no result and the client stores the envelope
wholesale. -/
theorem succeeded_without_video_cex :
    ((run someDefaults
        [Event.setPrompt "a cat", Event.start (StartOutcome.ok "op1"), Event.effect,
          Event.tick, Event.resolve 0 ⟨true, some "videoBytes", none⟩]).currentJob.map
      (fun j => (j.status, j.videoBase64)))
      = some (OperationStatus.SUCCEEDED, none) := by
  decide

/-- C4 (amended): when a poll finds `done=true` with a non-null result, the
job transitions to `SUCCEEDED` and polling stops, but the result payload is
NOT stored: the relay's status envelope carries only `{id, operationId,
status}`, the client replaces the job with it, and the resulting job's
`videoBase64` is null. -/
theorem succeeded_result_not_stored (c : FormDefaults) (evs : List Event) (i : Nat)
    (d : OperationData) (hi : i < (run c evs).pending.length)
    (hd : d.done = true) (hr : d.response.isSome = true) :
    ∃ j, (step c (run c evs) (Event.resolve i d)).currentJob = some j
      ∧ j.status = OperationStatus.SUCCEEDED
      ∧ j.videoBase64 = none
      ∧ (step c (run c evs) (Event.resolve i d)).liveTimers = []
      ∧ (step c (step c (run c evs) (Event.resolve i d)) Event.effect).liveTimers = [] := by
  have hst : statusOfOperation d = OperationStatus.SUCCEEDED := by
    simp [statusOfOperation, hd, hr]
  have hres := resolve_terminal c evs i d hi (Or.inl hst)
  exact ⟨_, hres.1, hst, rfl, hres.2.1, hres.2.2.2⟩

/-- Witness for the amended C4 at a concrete reachable state. -/
theorem succeeded_result_not_stored_witness :
    0 < runA.pending.length
    ∧ ∃ j, (step someDefaults runA
        (Event.resolve 0 ⟨true, some "videoBytes", none⟩)).currentJob = some j
      ∧ j.status = OperationStatus.SUCCEEDED
      ∧ j.videoBase64 = none
      ∧ (step someDefaults runA
          (Event.resolve 0 ⟨true, some "videoBytes", none⟩)).liveTimers = []
      ∧ (step someDefaults (step someDefaults runA
          (Event.resolve 0 ⟨true, some "videoBytes", none⟩)) Event.effect).liveTimers = [] := by
  refine ⟨by decide, ?_⟩
  exact succeeded_result_not_stored someDefaults
    [Event.setPrompt "a cat", Event.start (StartOutcome.ok "op1"), Event.effect,
      Event.tick] 0 ⟨true, some "videoBytes", none⟩ (by decide) rfl rfl

/-- C5 counterexample: the poll `{done:true, error:{message:"quota
exceeded"}}` does move the job to `FAILED` and polling stops, but the stored
job's `errorMessage` is null, not `"quota exceeded"`: the relay discards the
error object and its envelope has no `errorMessage` field. -/
theorem failed_error_message_dropped_cex :
    ((run someDefaults
        [Event.setPrompt "a cat", Event.start (StartOutcome.ok "op1"), Event.effect,
          Event.tick, Event.resolve 0 ⟨true, none, some "quota exceeded"⟩]).currentJob.map
      (fun j => (j.status, j.errorMessage)))
      = some (OperationStatus.FAILED, none)
    ∧ (run someDefaults
        [Event.setPrompt "a cat", Event.start (StartOutcome.ok "op1"), Event.effect,
          Event.tick, Event.resolve 0 ⟨true, none, some "quota exceeded"⟩]).liveTimers
      = [] := by
  decide

/-- C5 (amended): when a poll finds `done=true` with no result (whatever the
`error` field holds), the job's status becomes `FAILED` and polling stops,
but the remote error message is NOT captured: the stored job's `errorMessage`
is null. -/
theorem failed_poll_amended (c : FormDefaults) (evs : List Event) (i : Nat)
    (d : OperationData) (hi : i < (run c evs).pending.length)
    (hd : d.done = true) (hr : d.response = none) :
    ∃ j, (step c (run c evs) (Event.resolve i d)).currentJob = some j
      ∧ j.status = OperationStatus.FAILED
      ∧ j.errorMessage = none
      ∧ (step c (run c evs) (Event.resolve i d)).liveTimers = []
      ∧ (step c (step c (run c evs) (Event.resolve i d)) Event.effect).liveTimers = [] := by
  have hst : statusOfOperation d = OperationStatus.FAILED := by
    simp [statusOfOperation, hd, hr]
  have hres := resolve_terminal c evs i d hi (Or.inr hst)
  exact ⟨_, hres.1, hst, rfl, hres.2.1, hres.2.2.2⟩

/-- Witness for the amended C5 at a concrete reachable state, with the
spec's own example message. -/
theorem failed_poll_amended_witness :
    0 < runA.pending.length
    ∧ ∃ j, (step someDefaults runA
        (Event.resolve 0 ⟨true, none, some "quota exceeded"⟩)).currentJob = some j
      ∧ j.status = OperationStatus.FAILED
      ∧ j.errorMessage = none
      ∧ (step someDefaults runA
          (Event.resolve 0 ⟨true, none, some "quota exceeded"⟩)).liveTimers = []
      ∧ (step someDefaults (step someDefaults runA
          (Event.resolve 0 ⟨true, none, some "quota exceeded"⟩))
          Event.effect).liveTimers = [] := by
  refine ⟨by decide, ?_⟩
  exact failed_poll_amended someDefaults
    [Event.setPrompt "a cat", Event.start (StartOutcome.ok "op1"), Event.effect,
      Event.tick] 0 ⟨true, none, some "quota exceeded"⟩ (by decide) rfl rfl

/-- C6 counterexample: with a `GENERATING` job, the clear handler awaits the
relay's cancel call — while that call is in flight the job is still present
and its polling interval still live, so the local clearing is NOT immediate
and DOES wait for the relay call to settle. -/
theorem clear_waits_for_cancel_cex :
    (run someDefaults
        [Event.setPrompt "a cat", Event.start (StartOutcome.ok "op1"), Event.effect,
          Event.clear]).currentJob.isSome = true
    ∧ (run someDefaults
        [Event.setPrompt "a cat", Event.start (StartOutcome.ok "op1"), Event.effect,
          Event.clear]).cancelInFlight = true
    ∧ (run someDefaults
        [Event.setPrompt "a cat", Event.start (StartOutcome.ok "op1"), Event.effect,
          Event.clear]).liveTimers.length = 1 := by
  decide

/-- C6 (amended): cancelling a job in `GENERATING` or `RUNNING` clears the
local job state and stops polling whichever way the relay's cancel call
settles — but only once it settles; the clearing waits for the relay call
rather than happening immediately. -/
theorem clear_after_cancel_settles (c : FormDefaults) (evs : List Event)
    (r : CancelOutcome) :
    (step c (step c (run c evs) Event.clear) (Event.cancelDone r)).currentJob = none
    ∧ (step c (step c (run c evs) Event.clear) (Event.cancelDone r)).liveTimers = []
    ∧ (step c (step c (run c evs) Event.clear) (Event.cancelDone r)).isLoading = false
    ∧ (step c (step c (run c evs) Event.clear)
        (Event.cancelDone r)).isFetchingStatus = false :=
  cancel_clears c (run c evs) (timerInv_run c evs) r

/-- C7: after a transport failure of an automatic poll, the error is surfaced
and the job keeps its last status, and the catch block does clear the
interval — but the polling effect (whose dependencies include
`isFetchingStatus`) immediately re-creates it because the job is still in a
pollable state, and the next tick issues a fresh poll: polling is NOT halted
and the failed poll IS retried automatically. -/
theorem poll_error_resumes_polling :
    (run someDefaults
        [Event.setPrompt "a cat", Event.start (StartOutcome.ok "op1"), Event.effect,
          Event.tick, Event.reject 0 "network error"]).error = some "network error"
    ∧ (run someDefaults
        [Event.setPrompt "a cat", Event.start (StartOutcome.ok "op1"), Event.effect,
          Event.tick, Event.reject 0 "network error"]).liveTimers = []
    ∧ ((run someDefaults
        [Event.setPrompt "a cat", Event.start (StartOutcome.ok "op1"), Event.effect,
          Event.tick, Event.reject 0 "network error"]).currentJob.map
        (fun j => j.status)) = some OperationStatus.GENERATING
    ∧ (run someDefaults
        [Event.setPrompt "a cat", Event.start (StartOutcome.ok "op1"), Event.effect,
          Event.tick, Event.reject 0 "network error", Event.effect]).liveTimers.length = 1
    ∧ (run someDefaults
        [Event.setPrompt "a cat", Event.start (StartOutcome.ok "op1"), Event.effect,
          Event.tick, Event.reject 0 "network error", Event.effect,
          Event.tick]).pending.length = 1 := by
  decide

/-- C8: no stale-response check exists.  After cancellation completes the job
is null, yet the response to the poll that was in flight for the cancelled
operation is applied unconditionally: it reinstates a job for the cancelled
operation id (status `RUNNING`), and the next effect run even restarts the
polling interval for it. -/
theorem stale_response_applied :
    (run someDefaults
        [Event.setPrompt "a cat", Event.start (StartOutcome.ok "opA"), Event.effect,
          Event.tick, Event.clear, Event.cancelDone CancelOutcome.ok]).currentJob = none
    ∧ ((run someDefaults
        [Event.setPrompt "a cat", Event.start (StartOutcome.ok "opA"), Event.effect,
          Event.tick, Event.clear, Event.cancelDone CancelOutcome.ok,
          Event.resolve 0 ⟨false, none, none⟩]).currentJob.map
        (fun j => (j.operationId, j.status)))
      = some (some "opA", OperationStatus.RUNNING)
    ∧ (run someDefaults
        [Event.setPrompt "a cat", Event.start (StartOutcome.ok "opA"), Event.effect,
          Event.tick, Event.clear, Event.cancelDone CancelOutcome.ok,
          Event.resolve 0 ⟨false, none, none⟩, Event.effect]).liveTimers.length = 1 := by
  decide

end Veo
